import Mathlib

/-!
Verification of the Photograph image-processing engine against its
natural-language specification.

The development shallowly embeds the Rust sources:
* `src/state.rs` — the `EditState` record and its JSON sidecar encoding;
* `src/processing/{transform,exposure,color,filters,sharpness}.rs` — the
  CPU pipeline;
* `src/processing/gpu_pipeline.rs` — the no-op / size gating of the GPU path;
* `src/viewer.rs` — backend dispatch and the preview scheduler's
  generation counting;
* `src/main.rs` — `parse_preview_backend`;
* `src/app.rs` — `build_output_path`.

Numeric conventions: `f32` scalar arithmetic is idealised as exact rational
arithmetic (`ℚ`); transcendental operations performed by external crates
(`powf`, Gaussian blur, bilinear resampling) are abstracted as parameters
bundled in `ExternalOps`, so every theorem quantifies over them.
Pixel channels are stored as integers (bytes 0..255 in well-formed images).
-/

namespace Photograph

/-- Rust `f32::clamp(lo, hi)` on exact rationals (for `lo ≤ hi`). -/
def clampQ (x lo hi : ℚ) : ℚ := max lo (min x hi)

/-- Rust `f32::round` (round half away from zero), landing in `ℤ`. -/
def rustRound (q : ℚ) : ℤ := if 0 ≤ q then ⌊q + 1/2⌋ else -⌊-q + 1/2⌋

/-- Rust `as u32` on a nonnegative-or-saturated float: truncation toward
zero, saturating at `0` below and `2^32 - 1` above. -/
def ratToU32 (q : ℚ) : ℕ := (min (max ⌊q⌋ 0) (2 ^ 32 - 1)).toNat

/-- Integer clamp (used after `rustRound` for byte outputs). -/
def clampZ (x lo hi : ℤ) : ℤ := max lo (min x hi)

/-- Per-hue HSL adjustment (src/state.rs `HslAdjust`). -/
structure HslAdjust where
  hue : ℚ
  saturation : ℚ
  lightness : ℚ
  deriving DecidableEq, Repr

instance : Inhabited HslAdjust := ⟨⟨0, 0, 0⟩⟩

/-- Keystone perspective parameters (src/state.rs `Keystone`). -/
structure Keystone where
  vertical : ℚ
  horizontal : ℚ
  deriving DecidableEq, Repr

/-- Normalized crop rectangle (src/state.rs `Rect`). -/
structure Rect where
  x : ℚ
  y : ℚ
  width : ℚ
  height : ℚ
  deriving DecidableEq, Repr

/-- Graduated filter parameters (src/state.rs `GradFilter`). -/
structure GradFilter where
  top : ℚ
  bottom : ℚ
  exposure : ℚ
  deriving DecidableEq, Repr

/-- The edit-state record (src/state.rs `EditState`). The Rust
`[HslAdjust; 8]` array is modelled as a list (8 entries in well-formed
states). -/
structure EditState where
  rotate : ℤ
  flip_h : Bool
  flip_v : Bool
  crop : Option Rect
  straighten : ℚ
  keystone : Keystone
  exposure : ℚ
  contrast : ℚ
  highlights : ℚ
  shadows : ℚ
  temperature : ℚ
  saturation : ℚ
  hue_shift : ℚ
  selective_color : List HslAdjust
  graduated_filter : Option GradFilter
  sharpness : ℚ
  deriving DecidableEq, Repr

/-- `EditState::default()` (src/state.rs). -/
def EditState.default : EditState where
  rotate := 0
  flip_h := false
  flip_v := false
  crop := none
  straighten := 0
  keystone := ⟨0, 0⟩
  exposure := 0
  contrast := 0
  highlights := 0
  shadows := 0
  temperature := 0
  saturation := 0
  hue_shift := 0
  selective_color := List.replicate 8 ⟨0, 0, 0⟩
  graduated_filter := none
  sharpness := 0

instance : Inhabited EditState := ⟨EditState.default⟩

/-- One RGBA pixel; channels are byte values in `ℤ`. -/
structure Pixel where
  r : ℤ
  g : ℤ
  b : ℤ
  a : ℤ
  deriving DecidableEq, Repr

/-- An RGBA raster: explicit dimensions plus a pixel lookup function. -/
structure Image where
  width : ℕ
  height : ℕ
  pix : ℕ → ℕ → Pixel

/-- The preview backend variants (src/viewer.rs `PreviewBackend`; the GPU
variant is spelled `GpuPipeline` in src/main.rs). -/
inductive PreviewBackend where
  | cpu
  | auto
  | gpuPipeline
  deriving DecidableEq, Repr

/-- Rust `char::to_ascii_lowercase`. -/
def asciiLowerChar (c : Char) : Char :=
  if 'A' ≤ c ∧ c ≤ 'Z' then Char.ofNat (c.toNat + 32) else c

/-- Rust `str::to_ascii_lowercase`. -/
def asciiLower (s : String) : String := ⟨s.data.map asciiLowerChar⟩

/-- Rust `str::trim`: strip leading and trailing whitespace. -/
def rustTrim (s : String) : String :=
  ⟨((s.data.dropWhile Char.isWhitespace).reverse.dropWhile Char.isWhitespace).reverse⟩

/-- The normalisation prefix of `parse_preview_backend`:
`value.trim().to_ascii_lowercase()`. -/
def normBackendString (value : String) : String := asciiLower (rustTrim value)

/-- src/main.rs `parse_preview_backend`: trims, ASCII-lowercases, then
matches the backend aliases. -/
def parse_preview_backend (value : String) : PreviewBackend :=
  let norm := normBackendString value
  if norm = "cpu" then .cpu
  else if norm = "auto" then .auto
  else if norm = "gpu" ∨ norm = "gpu_pipeline" ∨ norm = "gpu_spike" ∨
      norm = "spike" ∨ norm = "wgpu" then .gpuPipeline
  else .auto

/-! ### The CPU pipeline (src/processing) -/

/-- The `0.001` activity threshold (`STATE_EPS` in gpu_pipeline.rs and the
literal `0.001` in the CPU stages). -/
def eps : ℚ := 1 / 1000

/-- `f32::EPSILON`, used by `rgb_to_hsl`'s branch selection. -/
def eps32 : ℚ := 1 / 2 ^ 23

/-- Operations the pipeline delegates to external crates, abstracted:
`exp2` models `2.0_f32.powf`, `gaussianBlur` models
`imageproc::filter::gaussian_blur_f32` at `σ = 1.5`, `straightenRot`
models `rotate_about_center` (argument in degrees, bilinear, black fill),
`keystoneWarp` models `apply_keystone`'s projective warp. -/
structure ExternalOps where
  exp2 : ℚ → ℚ
  gaussianBlur : Image → Image
  straightenRot : Image → ℚ → Image
  keystoneWarp : Image → Keystone → Image

/-- Straighten stage of `transform::apply` (threshold `0.01`). -/
def straightenStage (ops : ExternalOps) (st : EditState) (img : Image) : Image :=
  if |st.straighten| > 1 / 100 then ops.straightenRot img st.straighten else img

/-- Keystone stage of `transform::apply` (thresholds `0.001`). -/
def keystoneStage (ops : ExternalOps) (st : EditState) (img : Image) : Image :=
  if |st.keystone.vertical| > eps ∨ |st.keystone.horizontal| > eps then
    ops.keystoneWarp img st.keystone
  else img

/-- `image::DynamicImage::rotate90` (clockwise quarter turn). -/
def rotate90 (img : Image) : Image :=
  ⟨img.height, img.width, fun x y => img.pix y (img.height - 1 - x)⟩

/-- `image::DynamicImage::rotate180`. -/
def rotate180 (img : Image) : Image :=
  ⟨img.width, img.height, fun x y => img.pix (img.width - 1 - x) (img.height - 1 - y)⟩

/-- `image::DynamicImage::rotate270`. -/
def rotate270 (img : Image) : Image :=
  ⟨img.height, img.width, fun x y => img.pix (img.width - 1 - y) x⟩

/-- Orthogonal-rotate stage: `match state.rotate.rem_euclid(360)`. -/
def rotateStage (st : EditState) (img : Image) : Image :=
  if st.rotate.emod 360 = 90 then rotate90 img
  else if st.rotate.emod 360 = 180 then rotate180 img
  else if st.rotate.emod 360 = 270 then rotate270 img
  else img

/-- `image::DynamicImage::fliph`. -/
def fliph (img : Image) : Image :=
  ⟨img.width, img.height, fun x y => img.pix (img.width - 1 - x) y⟩

/-- `image::DynamicImage::flipv`. -/
def flipv (img : Image) : Image :=
  ⟨img.width, img.height, fun x y => img.pix x (img.height - 1 - y)⟩

/-- Flip stage: horizontal then vertical. -/
def flipStage (st : EditState) (img : Image) : Image :=
  let i1 := if st.flip_h then fliph img else img
  if st.flip_v then flipv i1 else i1

/-- Crop stage of `transform::apply`: normalized rectangle, truncating
casts, skip when either extent is zero. -/
def cropStage (st : EditState) (img : Image) : Image :=
  match st.crop with
  | none => img
  | some c =>
    let w : ℚ := img.width
    let h : ℚ := img.height
    let cx := ratToU32 (c.x * w)
    let cy := ratToU32 (c.y * h)
    let cw := ratToU32 (min (c.width * w) (w - cx))
    let ch := ratToU32 (min (c.height * h) (h - cy))
    if 0 < cw ∧ 0 < ch then
      ⟨cw, ch, fun x y => img.pix (cx + x) (cy + y)⟩
    else img

/-- `exposure::smoothstep`. -/
def smoothstep (e0 e1 x : ℚ) : ℚ :=
  let t := clampQ ((x - e0) / (e1 - e0)) 0 1
  t * t * (3 - 2 * t)

/-- Per-pixel body of `exposure::apply` (src/processing/exposure.rs):
exposure/contrast mapping, then the luminance-weighted highlights/shadows
adjustment. -/
def exposurePixel (ops : ExternalOps) (st : EditState) (p : Pixel) : Pixel :=
  let exposure_gain := ops.exp2 (clampQ st.exposure (-5) 5)
  let contrast_gain := 1 + clampQ st.contrast (-1) 1
  let highlights := clampQ st.highlights (-1) 1
  let shadows := clampQ st.shadows (-1) 1
  let r0 := (p.r : ℚ) / 255
  let g0 := (p.g : ℚ) / 255
  let b0 := (p.b : ℚ) / 255
  let r := clampQ ((r0 * exposure_gain - 1/2) * contrast_gain + 1/2) 0 1
  let g := clampQ ((g0 * exposure_gain - 1/2) * contrast_gain + 1/2) 0 1
  let b := clampQ ((b0 * exposure_gain - 1/2) * contrast_gain + 1/2) 0 1
  let luma := 2126/10000 * r + 7152/10000 * g + 722/10000 * b
  let t1 :=
    if |shadows| > eps then
      let w := 1 - smoothstep 0 (1/2) luma
      if 0 ≤ shadows then luma + (1 - luma) * shadows * w else luma * (1 + shadows * w)
    else luma
  let t2 :=
    if |highlights| > eps then
      let w := smoothstep (1/2) 1 t1
      if 0 ≤ highlights then t1 + (1 - t1) * highlights * w else t1 * (1 + highlights * w)
    else t1
  let scale := if luma > 1/100000 then t2 / luma else 1
  let r2 := clampQ (r * scale) 0 1
  let g2 := clampQ (g * scale) 0 1
  let b2 := clampQ (b * scale) 0 1
  ⟨rustRound (r2 * 255), rustRound (g2 * 255), rustRound (b2 * 255), p.a⟩

/-- `exposure::apply`: skip when all four tone scalars are below `0.001`. -/
def exposureApply (ops : ExternalOps) (st : EditState) (img : Image) : Image :=
  if |st.exposure| < eps ∧ |st.contrast| < eps ∧ |st.highlights| < eps ∧ |st.shadows| < eps then
    img
  else ⟨img.width, img.height, fun x y => exposurePixel ops st (img.pix x y)⟩

/-- `color::wrap_unit`: normalise into `[0, 1)` (the while-loops compute
the fractional part). -/
def wrap_unit (v : ℚ) : ℚ := v - ⌊v⌋

/-- Rust `%` on floats (truncated remainder), divisor `6.0`. -/
def rem6 (x : ℚ) : ℚ := x - 6 * (if 0 ≤ x / 6 then (⌊x / 6⌋ : ℤ) else ⌈x / 6⌉)

/-- `color::rgb_to_hsl`. -/
def rgb_to_hsl (r g b : ℚ) : ℚ × ℚ × ℚ :=
  let mx := max r (max g b)
  let mn := min r (min g b)
  let l := (mx + mn) * (1/2)
  let d := mx - mn
  if d ≤ 1/1000000 then (0, 0, l)
  else
    let s := d / (1 - |2 * l - 1|)
    let h0 :=
      if |mx - r| < eps32 then rem6 ((g - b) / d)
      else if |mx - g| < eps32 then (b - r) / d + 2
      else (r - g) / d + 4
    (wrap_unit (h0 / 6), clampQ s 0 1, clampQ l 0 1)

/-- `color::hue_to_rgb`. -/
def hue_to_rgb (p q t0 : ℚ) : ℚ :=
  let t := wrap_unit t0
  if t < 1/6 then p + (q - p) * 6 * t
  else if t < 1/2 then q
  else if t < 2/3 then p + (q - p) * (2/3 - t) * 6
  else p

/-- `color::hsl_to_rgb`. -/
def hsl_to_rgb (h s l : ℚ) : ℚ × ℚ × ℚ :=
  if s ≤ 1/1000000 then (l, l, l)
  else
    let q := if l < 1/2 then l * (1 + s) else l + s - l * s
    let p := 2 * l - q
    (clampQ (hue_to_rgb p q (h + 1/3)) 0 1,
     clampQ (hue_to_rgb p q h) 0 1,
     clampQ (hue_to_rgb p q (h - 1/3)) 0 1)

/-- `color::hue_distance_deg`. -/
def hue_distance_deg (a b : ℚ) : ℚ := min |a - b| (360 - |a - b|)

/-- `color::selective_weight` with the fixed half-width of 30°. -/
def selective_weight (hue_unit center : ℚ) : ℚ :=
  let hue_deg := wrap_unit hue_unit * 360
  let dist := hue_distance_deg hue_deg center
  if dist ≥ 30 then 0 else 1 - dist / 30

/-- `SELECTIVE_CENTERS_DEG`: red, orange, yellow, green, cyan, blue,
purple, pink. -/
def selectiveCenters : List ℚ := [0, 30, 60, 120, 180, 240, 285, 330]

/-- One iteration of the selective-color loop in `color::apply`. -/
def selectiveStep (acc : ℚ × ℚ × ℚ) (entry : HslAdjust × ℚ) : ℚ × ℚ × ℚ :=
  let adj := entry.1
  if |adj.hue| < eps ∧ |adj.saturation| < eps ∧ |adj.lightness| < eps then acc
  else
    let w := selective_weight acc.1 entry.2
    if w ≤ 0 then acc
    else
      (wrap_unit (acc.1 + adj.hue / 360 * w),
       clampQ (acc.2.1 * (1 + adj.saturation * w)) 0 1,
       clampQ (acc.2.2 + adj.lightness * w) 0 1)

/-- Per-pixel body of `color::apply` (src/processing/color.rs): white
balance, global HSL (hue shift + saturation), selective color. -/
def colorPixel (st : EditState) (p : Pixel) : Pixel :=
  let temp := clampQ st.temperature (-1) 1
  let sat_adjust := clampQ st.saturation (-1) 1
  let hue_shift_unit := st.hue_shift / 360
  let r0 := (p.r : ℚ) / 255
  let g0 := (p.g : ℚ) / 255
  let b0 := (p.b : ℚ) / 255
  let rb :=
    if 0 < temp then (r0 + (1 - r0) * temp * (1/4), b0 * (1 - temp * (1/4)))
    else if temp < 0 then (r0 * (1 - (-temp) * (1/4)), b0 + (1 - b0) * (-temp) * (1/4))
    else (r0, b0)
  let r1 := clampQ rb.1 0 1
  let g1 := clampQ g0 0 1
  let b1 := clampQ rb.2 0 1
  let hsl := rgb_to_hsl r1 g1 b1
  let h1 := wrap_unit (hsl.1 + hue_shift_unit)
  let s1 := clampQ (hsl.2.1 * (1 + sat_adjust)) 0 1
  let out := (st.selective_color.zip selectiveCenters).foldl selectiveStep (h1, s1, hsl.2.2)
  let rgb := hsl_to_rgb out.1 out.2.1 out.2.2
  ⟨rustRound (rgb.1 * 255), rustRound (rgb.2.1 * 255), rustRound (rgb.2.2 * 255), p.a⟩

/-- `any_selective` in `color::apply`. -/
def anySelectiveActive (st : EditState) : Bool :=
  st.selective_color.any fun a =>
    decide (|a.hue| > eps) || decide (|a.saturation| > eps) || decide (|a.lightness| > eps)

/-- `color::apply`: skip when temperature, saturation, hue shift and all
selective-color entries are inactive. -/
def colorApply (st : EditState) (img : Image) : Image :=
  if |st.temperature| < eps ∧ |st.saturation| < eps ∧ |st.hue_shift| < eps ∧
      ¬ anySelectiveActive st then img
  else ⟨img.width, img.height, fun x y => colorPixel st (img.pix x y)⟩

/-- Row weight of the graduated filter (src/processing/filters.rs). -/
def gradWeight (top bottom y_norm : ℚ) : ℚ :=
  if y_norm ≤ top then 1
  else if y_norm ≥ bottom then 0
  else (bottom - y_norm) / (bottom - top)

/-- Per-pixel body of `filters::apply`: rows with weight `≤ 0` are left
untouched, others are scaled by `2^(exposure·weight)` and requantised. -/
def gradPixel (ops : ExternalOps) (exposure weight : ℚ) (p : Pixel) : Pixel :=
  if weight ≤ 0 then p
  else
    let gain := ops.exp2 (exposure * weight)
    ⟨rustRound (clampQ ((p.r : ℚ) / 255 * gain) 0 1 * 255),
     rustRound (clampQ ((p.g : ℚ) / 255 * gain) 0 1 * 255),
     rustRound (clampQ ((p.b : ℚ) / 255 * gain) 0 1 * 255), p.a⟩

/-- `filters::apply` (the graduated filter). -/
def filtersApply (ops : ExternalOps) (st : EditState) (img : Image) : Image :=
  match st.graduated_filter with
  | none => img
  | some grad =>
    if |grad.exposure| < eps then img
    else
      let top := clampQ grad.top 0 1
      let bottom := clampQ grad.bottom 0 1
      if bottom ≤ top + 1/10000 then img
      else
        let exposure := clampQ grad.exposure (-5) 5
        let hDenom : ℚ := (max (max img.height 1 - 1) 1 : ℕ)
        ⟨img.width, img.height, fun x y =>
          gradPixel ops exposure (gradWeight top bottom ((y : ℚ) / hDenom)) (img.pix x y)⟩

/-- Per-pixel unsharp-mask blend of `sharpness::apply`. -/
def usmPixel (amount : ℚ) (s bl : Pixel) : Pixel :=
  ⟨clampZ (rustRound ((s.r : ℚ) + amount * ((s.r : ℚ) - (bl.r : ℚ)))) 0 255,
   clampZ (rustRound ((s.g : ℚ) + amount * ((s.g : ℚ) - (bl.g : ℚ)))) 0 255,
   clampZ (rustRound ((s.b : ℚ) + amount * ((s.b : ℚ) - (bl.b : ℚ)))) 0 255,
   s.a⟩

/-- `sharpness::apply` (src/processing/sharpness.rs): unsharp mask against
a Gaussian blur (σ = 1.5) of the stage input; alpha preserved. -/
def sharpnessApply (ops : ExternalOps) (st : EditState) (img : Image) : Image :=
  if st.sharpness < eps then img
  else
    let blurred := ops.gaussianBlur img
    ⟨img.width, img.height, fun x y => usmPixel st.sharpness (img.pix x y) (blurred.pix x y)⟩

/-- src/processing/transform.rs `apply`: straighten → keystone →
orthogonal rotate → flip → crop, then exposure, color and the graduated
filter. (The source never invokes `sharpness::apply` here — see C1.) -/
def apply (ops : ExternalOps) (img : Image) (st : EditState) : Image :=
  filtersApply ops st (colorApply st (exposureApply ops st
    (cropStage st (flipStage st (rotateStage st
      (keystoneStage ops st (straightenStage ops st img)))))))

/-! ### GPU path gating (src/processing/gpu_pipeline.rs) and backend
dispatch (src/viewer.rs) -/

/-- `gpu_pipeline::is_gpu_state_supported` (always true). -/
def is_gpu_state_supported (_ : EditState) : Bool := true

/-- `gpu_pipeline::has_geometry`. -/
def hasGeometry (st : EditState) : Bool :=
  decide (st.rotate.emod 360 ≠ 0) || st.flip_h || st.flip_v || st.crop.isSome ||
    decide (|st.straighten| > 1/100) ||
    decide (|st.keystone.vertical| > eps) || decide (|st.keystone.horizontal| > eps)

/-- `gpu_pipeline::has_gpu_adjustments`. -/
def hasGpuAdjustments (st : EditState) : Bool :=
  let gradActive := st.graduated_filter.elim false fun grad =>
    decide (|grad.exposure| > eps) && decide (grad.top + 1/10000 < grad.bottom)
  decide (|st.exposure| > eps) || decide (|st.contrast| > eps) ||
    decide (|st.highlights| > eps) || decide (|st.shadows| > eps) ||
    decide (|st.temperature| > eps) || decide (|st.saturation| > eps) ||
    decide (|st.hue_shift| > eps) || gradActive || anySelectiveActive st ||
    decide (st.sharpness > eps) || hasGeometry st

/-- `gpu_pipeline::try_apply`, with the actual kernel chain abstracted as
`gpuCompute` and the device's max 2D texture dimension as `maxDim`
(0 when the GPU is unavailable). -/
def try_apply (gpuCompute : Image → EditState → Option Image) (maxDim : ℕ)
    (img : Image) (st : EditState) : Option Image :=
  if ¬ is_gpu_state_supported st then none
  else if ¬ hasGpuAdjustments st then some img
  else if img.width = 0 ∨ img.height = 0 then some img
  else if 0 < maxDim ∧ (maxDim < img.width ∨ maxDim < img.height) then none
  else gpuCompute img st

/-- src/viewer.rs `process_preview_with_backend_and_gpu_hook`: `Cpu` runs
the CPU pipeline; `Auto` and the GPU backend run the hook and fall back to
the CPU pipeline whenever it returns `None`. -/
def process_preview_with_backend_and_gpu_hook (ops : ExternalOps) (source : Image)
    (st : EditState) (backend : PreviewBackend)
    (gpu_apply : Image → EditState → Option Image) : Image :=
  match backend with
  | .cpu => apply ops source st
  | .auto | .gpuPipeline => (gpu_apply source st).getD (apply ops source st)

/-! ### Batch-render output-path reservation (src/app.rs) -/

/-- Split a character list at a separator (like `str::split`). -/
def splitChar (sep : Char) : List Char → List (List Char)
  | [] => [[]]
  | c :: cs =>
    match splitChar sep cs with
    | [] => [[c]]
    | h :: t => if c = sep then [] :: h :: t else (c :: h) :: t

/-- Rust `Path::file_name`: the component after the last `/`. -/
def fileName (path : String) : String :=
  ⟨(splitChar '/' path.data).getLastD path.data⟩

/-- Rust `Path::file_stem` on a file name: the whole name when there is no
dot, or when the only dot is a leading one; otherwise the portion before
the final dot. -/
def stemOfName (name : String) : String :=
  match splitChar '.' name.data with
  | [] => name
  | [_] => name
  | [[], _] => name
  | parts => ⟨List.intercalate ['.'] parts.dropLast⟩

/-- Stem of a full source path, as `build_output_path` derives it
(`source_path.file_stem()`), with `"image"` as the degenerate fallback. -/
def sourceStem (path : String) : String :=
  let n := fileName path
  if n = "" then "image" else stemOfName n

/-- src/app.rs `output_path_available`: not reserved in this batch and not
present on disk. The filesystem snapshot is a list of existing paths. -/
def output_path_available (path : String) (reserved disk : List String) : Bool :=
  ¬ reserved.contains path ∧ ¬ disk.contains path

/-- The `for n in 2..10000` probe loop of `build_output_path`: first
available numbered candidate starting at `n`, with `fuel` iterations. -/
def firstNumbered (dir stem ext : String) (reserved disk : List String) :
    ℕ → ℕ → Option String
  | _, 0 => none
  | n, fuel + 1 =>
    let candidate := dir ++ "/" ++ stem ++ "-" ++ toString n ++ "." ++ ext
    if output_path_available candidate reserved disk then some candidate
    else firstNumbered dir stem ext reserved disk (n + 1) fuel

/-- src/app.rs `build_output_path`: try `stem.ext`, then `stem-2.ext` …
`stem-9999.ext`, finally `stem-final.ext`; reserve and return the choice.
Returns the chosen path together with the updated reservation set. -/
def build_output_path (source_path dir ext : String)
    (reserved disk : List String) : String × List String :=
  let stem := sourceStem source_path
  let base := dir ++ "/" ++ stem ++ "." ++ ext
  if output_path_available base reserved disk then (base, base :: reserved)
  else
    match firstNumbered dir stem ext reserved disk 2 9998 with
    | some c => (c, c :: reserved)
    | none =>
      let fallback := dir ++ "/" ++ stem ++ "-final." ++ ext
      (fallback, fallback :: reserved)

/-- The candidate sequence named by the spec: `stem.ext`, `stem-2.ext`, …,
`stem-9999.ext`. -/
def candidateNames (dir stem ext : String) : List String :=
  (dir ++ "/" ++ stem ++ "." ++ ext) ::
    (List.range' 2 9998).map (fun n => dir ++ "/" ++ stem ++ "-" ++ toString n ++ "." ++ ext)

/-! ### Spec-side definitions (written from the specification's wording,
for comparison against the source embedding) -/

/-- Spec §4.1 step 6: `c ← clamp((c·2^exposure − 0.5)·(1 + contrast) + 0.5,
0, 1)` with exposure clamped to [-5, 5] and contrast to [-1, 1]
(`exp2` models `2^·`). -/
def specToneChannel (ops : ExternalOps) (st : EditState) (c : ℚ) : ℚ :=
  clampQ ((c * ops.exp2 (clampQ st.exposure (-5) 5) - 1/2) *
    (1 + clampQ st.contrast (-1) 1) + 1/2) 0 1

/-- Spec §4.1 step 7: the highlights/shadows luminance adjustment applied
to an RGB triple already in [0,1]. -/
def specHighlightsShadows (st : EditState) (r g b : ℚ) : ℚ × ℚ × ℚ :=
  let highlights := clampQ st.highlights (-1) 1
  let shadows := clampQ st.shadows (-1) 1
  let luma := 2126/10000 * r + 7152/10000 * g + 722/10000 * b
  let t1 :=
    if |shadows| > eps then
      let w := 1 - smoothstep 0 (1/2) luma
      if 0 ≤ shadows then luma + (1 - luma) * shadows * w else luma * (1 + shadows * w)
    else luma
  let t2 :=
    if |highlights| > eps then
      let w := smoothstep (1/2) 1 t1
      if 0 ≤ highlights then t1 + (1 - t1) * highlights * w else t1 * (1 + highlights * w)
    else t1
  let scale := if luma > 1/100000 then t2 / luma else 1
  (clampQ (r * scale) 0 1, clampQ (g * scale) 0 1, clampQ (b * scale) 0 1)

/-- The tone scalars of a state pre-clamped to their documented ranges. -/
def toneClamped (st : EditState) : EditState :=
  { st with
    exposure := clampQ st.exposure (-5) 5
    contrast := clampQ st.contrast (-1) 1
    highlights := clampQ st.highlights (-1) 1
    shadows := clampQ st.shadows (-1) 1 }

/-- Temperature and saturation pre-clamped to [-1, 1]. -/
def tempSatClamped (st : EditState) : EditState :=
  { st with
    temperature := clampQ st.temperature (-1) 1
    saturation := clampQ st.saturation (-1) 1 }

/-- Graduated-filter fields pre-clamped to their documented ranges. -/
def gradClamped (st : EditState) : EditState :=
  { st with
    graduated_filter := st.graduated_filter.map fun g =>
      ⟨clampQ g.top 0 1, clampQ g.bottom 0 1, clampQ g.exposure (-5) 5⟩ }

/-- A state with only the hue shift set (C6 counterexample input). -/
def hueOnlyState (v : ℚ) : EditState := { EditState.default with hue_shift := v }

/-! ### Preview-scheduler generation model (src/viewer.rs) -/

/-- Owner-side scheduler state relevant to generation counting: the fields
of `Viewer` used by `mark_inflight_stale_if_needed`, `trigger_process` and
`drain`. `inFlight` carries, next to the stamped generation, the
`EditState` the spawned worker captured; `texture` records which
`EditState` produced the currently published texture. -/
structure Sched where
  editState : EditState
  needsProcess : Bool
  needsFinal : Bool
  processing : Bool
  requested : ℕ
  inFlight : Option (ℕ × EditState)
  texture : Option EditState

/-- `u64::wrapping_add(1)`. -/
def u64succ (g : ℕ) : ℕ := (g + 1) % 2 ^ 64

/-- src/viewer.rs `bump_requested_generation_for_pending_changes`. -/
def bumpForPendingChanges (σ : Sched) : Sched :=
  if σ.processing ∧ σ.needsProcess ∧ σ.inFlight.map Prod.fst = some σ.requested then
    { σ with requested := u64succ σ.requested }
  else σ

/-- Owner events: an edit-state mutation (slider change followed by the
per-frame `mark_inflight_stale_if_needed`), a `show_image` tick that
reaches `trigger_process` (interactive or final, cache miss), and the
arrival of the outstanding worker's `Processed` message in `drain`. -/
inductive SchedEvent where
  | mutate (s : EditState)
  | submit (interactive : Bool)
  | arrive

/-- One owner-thread step of the generation protocol. -/
def schedStep (σ : Sched) : SchedEvent → Sched
  | .mutate s => bumpForPendingChanges { σ with editState := s, needsProcess := true }
  | .submit interactive =>
    let σ' := bumpForPendingChanges σ
    if (σ'.needsProcess ∨ σ'.needsFinal) ∧ ¬ σ'.processing then
      let r := u64succ σ'.requested
      { σ' with
        processing := true, needsProcess := false, needsFinal := interactive,
        requested := r, inFlight := some (r, σ'.editState) }
    else σ'
  | .arrive =>
    match σ.inFlight with
    | none => σ
    | some gs =>
      let σ1 := { σ with processing := false, inFlight := none }
      if gs.1 ≠ σ.requested then σ1 else { σ1 with texture := some gs.2 }

/-- A freshly created viewer (generation 0, nothing in flight). -/
def schedInit : Sched :=
  ⟨EditState.default, false, false, false, 0, none, none⟩

/-- Run a sequence of owner events from the initial state. -/
def schedRun (evs : List SchedEvent) : Sched := evs.foldl schedStep schedInit

/-- The generation invariant: an in-flight job is stamped with the current
generation and carries the current edit state, unless a mutation since its
submission bumped the requested generation past it. -/
def SchedInv (σ : Sched) : Prop :=
  ∀ g s, σ.inFlight = some (g, s) →
    σ.processing = true ∧
      (σ.requested = g ∧ σ.editState = s ∨ σ.requested = u64succ g)

/-! ### Sidecar JSON serialization of `EditState` (src/state.rs, serde) -/

/-- JSON values (numbers idealised as exact rationals). -/
inductive Json where
  | null
  | bool (b : Bool)
  | num (q : ℚ)
  | str (s : String)
  | arr (elems : List Json)
  | obj (fields : List (String × Json))
  deriving Repr

/-- Serde serialization of `Rect` (all fields, declaration order). -/
def Rect.toJson (r : Rect) : Json :=
  .obj [("x", .num r.x), ("y", .num r.y), ("width", .num r.width), ("height", .num r.height)]

/-- Serde serialization of `Keystone`. -/
def Keystone.toJson (k : Keystone) : Json :=
  .obj [("vertical", .num k.vertical), ("horizontal", .num k.horizontal)]

/-- Serde serialization of `HslAdjust`. -/
def HslAdjust.toJson (a : HslAdjust) : Json :=
  .obj [("hue", .num a.hue), ("saturation", .num a.saturation), ("lightness", .num a.lightness)]

/-- Serde serialization of `GradFilter`. -/
def GradFilter.toJson (g : GradFilter) : Json :=
  .obj [("top", .num g.top), ("bottom", .num g.bottom), ("exposure", .num g.exposure)]

/-- `Option<T>` serializes as `null` / the inner value. -/
def optToJson (f : α → Json) : Option α → Json
  | none => .null
  | some v => f v

/-- Serde serialization of `EditState` (field names and order as declared
in src/state.rs). -/
def EditState.toJson (s : EditState) : Json :=
  .obj
    [("rotate", .num (s.rotate : ℚ)),
     ("flip_h", .bool s.flip_h),
     ("flip_v", .bool s.flip_v),
     ("crop", optToJson Rect.toJson s.crop),
     ("straighten", .num s.straighten),
     ("keystone", s.keystone.toJson),
     ("exposure", .num s.exposure),
     ("contrast", .num s.contrast),
     ("highlights", .num s.highlights),
     ("shadows", .num s.shadows),
     ("temperature", .num s.temperature),
     ("saturation", .num s.saturation),
     ("hue_shift", .num s.hue_shift),
     ("selective_color", .arr (s.selective_color.map HslAdjust.toJson)),
     ("graduated_filter", optToJson GradFilter.toJson s.graduated_filter),
     ("sharpness", .num s.sharpness)]

/-- Extract a JSON number. -/
def Json.asNum : Json → Option ℚ
  | .num q => some q
  | _ => none

/-- Extract a JSON boolean. -/
def Json.asBool : Json → Option Bool
  | .bool b => some b
  | _ => none

/-- Extract an integer (serde rejects fractional values for `i32`). -/
def Json.asInt : Json → Option ℤ
  | .num q => if q.den = 1 then some q.num else none
  | _ => none

/-- Deserialization of `Rect` (all four fields required). -/
def Rect.fromJson? : Json → Option Rect
  | .obj fs => do
    let x ← (fs.lookup "x").bind Json.asNum
    let y ← (fs.lookup "y").bind Json.asNum
    let w ← (fs.lookup "width").bind Json.asNum
    let h ← (fs.lookup "height").bind Json.asNum
    return ⟨x, y, w, h⟩
  | _ => none

/-- Deserialization of `Keystone`. -/
def Keystone.fromJson? : Json → Option Keystone
  | .obj fs => do
    let v ← (fs.lookup "vertical").bind Json.asNum
    let h ← (fs.lookup "horizontal").bind Json.asNum
    return ⟨v, h⟩
  | _ => none

/-- Deserialization of `HslAdjust`. -/
def HslAdjust.fromJson? : Json → Option HslAdjust
  | .obj fs => do
    let h ← (fs.lookup "hue").bind Json.asNum
    let s ← (fs.lookup "saturation").bind Json.asNum
    let l ← (fs.lookup "lightness").bind Json.asNum
    return ⟨h, s, l⟩
  | _ => none

/-- Deserialization of `GradFilter`. -/
def GradFilter.fromJson? : Json → Option GradFilter
  | .obj fs => do
    let t ← (fs.lookup "top").bind Json.asNum
    let b ← (fs.lookup "bottom").bind Json.asNum
    let e ← (fs.lookup "exposure").bind Json.asNum
    return ⟨t, b, e⟩
  | _ => none

/-- An optional field: missing or `null` gives `none`, otherwise the inner
parser must succeed. -/
def optFromJson (f : Json → Option α) : Option Json → Option (Option α)
  | none => some none
  | some .null => some none
  | some j => (f j).map some

/-- A scalar field with the container-level `#[serde(default)]` fallback. -/
def numField (fs : List (String × Json)) (name : String) (d : ℚ) : Option ℚ :=
  match fs.lookup name with
  | none => some d
  | some j => j.asNum

/-- A boolean field with the default fallback. -/
def boolField (fs : List (String × Json)) (name : String) (d : Bool) : Option Bool :=
  match fs.lookup name with
  | none => some d
  | some j => j.asBool

/-- Deserialization of `EditState`: unknown fields ignored, missing fields
take their `EditState::default()` values (`#[serde(default)]`). -/
def EditState.fromJson? : Json → Option EditState
  | .obj fs => do
    let rotate ← match fs.lookup "rotate" with
      | none => some (0 : ℤ)
      | some j => j.asInt
    let flip_h ← boolField fs "flip_h" false
    let flip_v ← boolField fs "flip_v" false
    let crop ← optFromJson Rect.fromJson? (fs.lookup "crop")
    let straighten ← numField fs "straighten" 0
    let keystone ← match fs.lookup "keystone" with
      | none => some (⟨0, 0⟩ : Keystone)
      | some j => Keystone.fromJson? j
    let exposure ← numField fs "exposure" 0
    let contrast ← numField fs "contrast" 0
    let highlights ← numField fs "highlights" 0
    let shadows ← numField fs "shadows" 0
    let temperature ← numField fs "temperature" 0
    let saturation ← numField fs "saturation" 0
    let hue_shift ← numField fs "hue_shift" 0
    let selective ← match fs.lookup "selective_color" with
      | none => some (List.replicate 8 (⟨0, 0, 0⟩ : HslAdjust))
      | some (.arr xs) => xs.mapM HslAdjust.fromJson?
      | some _ => none
    let grad ← optFromJson GradFilter.fromJson? (fs.lookup "graduated_filter")
    let sharpness ← numField fs "sharpness" 0
    pure { rotate := rotate, flip_h := flip_h, flip_v := flip_v, crop := crop,
           straighten := straighten, keystone := keystone, exposure := exposure,
           contrast := contrast, highlights := highlights, shadows := shadows,
           temperature := temperature, saturation := saturation,
           hue_shift := hue_shift, selective_color := selective,
           graduated_filter := grad, sharpness := sharpness }
  | _ => none

/-! ### Concrete fixtures used by counterexamples and witnesses -/

/-- A 1×1 pure-red test image. -/
def redImage : Image := ⟨1, 1, fun _ _ => ⟨255, 0, 0, 255⟩⟩

/-- The sharpness-parity test input of gpu_pipeline.rs: left half dark,
right half bright. -/
def edgeImage : Image :=
  ⟨8, 1, fun x _ => if x < 4 then ⟨50, 50, 50, 255⟩ else ⟨200, 200, 200, 255⟩⟩

/-- A state that only requests sharpening (amount 1.0). -/
def sharpOnlyState : EditState := { EditState.default with sharpness := 1 }

/-- Trivial instantiation of the external operations (identity resampling,
blur to mid-gray, gain 1): used only to build closed witnesses. -/
def trivialOps : ExternalOps :=
  ⟨fun _ => 1, fun img => ⟨img.width, img.height, fun _ _ => ⟨125, 125, 125, 255⟩⟩,
   fun i _ => i, fun i _ => i⟩

/-- A GPU hook that always fails (init failed / no result). -/
def failingGpuHook : Image → EditState → Option Image := fun _ _ => none

/-- A state with only exposure set (+1 stop). -/
def exposureOnlyState : EditState := { EditState.default with exposure := 1 }

/-- A concrete normalized crop rectangle. -/
def witnessCropRect : Rect := ⟨1/10, 1/10, 1/2, 1/2⟩

/-- A state carrying only `witnessCropRect`. -/
def witnessCropState : EditState := { EditState.default with crop := some witnessCropRect }

/-- A uniform 4×4 test image. -/
def flatImage4 : Image := ⟨4, 4, fun _ _ => ⟨10, 20, 30, 255⟩⟩

/-! ### Theorems -/

theorem anySelectiveActive_replicate_zero (st : EditState)
    (h : st.selective_color = List.replicate 8 ⟨0, 0, 0⟩) :
    anySelectiveActive st = false := by
  norm_num [anySelectiveActive, h, List.replicate, eps]

theorem apply_skips_all_inactive (ops : ExternalOps) (img : Image) (st : EditState)
    (hst : st.straighten = 0) (hkv : st.keystone.vertical = 0)
    (hkh : st.keystone.horizontal = 0) (hrot : st.rotate = 0)
    (hfh : st.flip_h = false) (hfv : st.flip_v = false) (hcrop : st.crop = none)
    (he : st.exposure = 0) (hc : st.contrast = 0) (hh : st.highlights = 0)
    (hs : st.shadows = 0) (ht : st.temperature = 0) (hsa : st.saturation = 0)
    (hhue : st.hue_shift = 0) (hsel : st.selective_color = List.replicate 8 ⟨0, 0, 0⟩)
    (hgr : st.graduated_filter = none) :
    apply ops img st = img := by
  have h1 : straightenStage ops st img = img := by
    rw [straightenStage, if_neg]; rw [hst]; norm_num
  have h2 : keystoneStage ops st img = img := by
    rw [keystoneStage, if_neg]; rw [hkv, hkh]; norm_num [eps]
  have h3 : rotateStage st img = img := by
    rw [rotateStage, hrot]
    norm_num
  have h4 : flipStage st img = img := by
    simp [flipStage, hfh, hfv]
  have h5 : cropStage st img = img := by
    simp [cropStage, hcrop]
  have h6 : exposureApply ops st img = img := by
    rw [exposureApply, if_pos]; rw [he, hc, hh, hs]; norm_num [eps]
  have h7 : colorApply st img = img := by
    rw [colorApply, if_pos]
    refine ⟨?_, ?_, ?_, ?_⟩
    · rw [ht]; norm_num [eps]
    · rw [hsa]; norm_num [eps]
    · rw [hhue]; norm_num [eps]
    · simp [anySelectiveActive_replicate_zero st hsel]
  have h8 : filtersApply ops st img = img := by
    simp [filtersApply, hgr]
  rw [apply, h1, h2, h3, h4, h5, h6, h7, h8]

/-- C3 — confirmed. On the default `EditState` every CPU stage hits its
skip branch and `transform::apply` returns the input image; the GPU
`try_apply` detects the no-op state (`has_gpu_adjustments` is false) and
returns `Some` of the input without dispatching, for any kernel-chain
behaviour and any device texture limit. -/
theorem C3_default_state_identity (ops : ExternalOps) (img : Image)
    (gpuCompute : Image → EditState → Option Image) (maxDim : ℕ) :
    apply ops img EditState.default = img ∧
    try_apply gpuCompute maxDim img EditState.default = some img := by
  constructor
  · exact apply_skips_all_inactive ops img EditState.default rfl rfl rfl rfl rfl rfl rfl
      rfl rfl rfl rfl rfl rfl rfl rfl rfl
  · have hadj : hasGpuAdjustments EditState.default = false := by
      norm_num [hasGpuAdjustments, hasGeometry, anySelectiveActive,
        EditState.default, List.replicate, Option.elim, eps]
    simp [try_apply, is_gpu_state_supported, hadj]

/-- C1 — the sharpening stage is missing from the CPU pipeline.
`transform::apply` never invokes `sharpness::apply`: on the
gpu_pipeline.rs sharpness-parity test input (hard vertical edge,
sharpness = 1.0 > 1e-3) the pipeline output is byte-identical to its
input for every choice of external operations, whereas the unsharp-mask
stage (`sharpness::apply`, embedded as `sharpnessApply`) visibly changes
the edge pixels. -/
theorem C1_sharpness_stage_missing :
    (∀ ops : ExternalOps, apply ops edgeImage sharpOnlyState = edgeImage) ∧
    sharpnessApply trivialOps sharpOnlyState edgeImage ≠ edgeImage := by
  constructor
  · intro ops
    exact apply_skips_all_inactive ops edgeImage sharpOnlyState rfl rfl rfl rfl rfl rfl rfl
      rfl rfl rfl rfl rfl rfl rfl rfl rfl
  · intro h
    have hch := congrArg (fun i => (i.pix 0 0).r) h
    rw [sharpnessApply, if_neg (by norm_num [sharpOnlyState, EditState.default, eps])] at hch
    simp only [edgeImage, usmPixel, trivialOps, sharpOnlyState, EditState.default] at hch
    norm_num [rustRound, clampZ, max_def, min_def] at hch

/-- C2 — counterexample. The claim requires that, with the debug fallback
flag unset, a failed GPU path makes the operation fail with a runtime
error instead of returning the CPU result. In the source the operation's
result type has no failure case and the dispatch never consults the flag:
with a hook that always fails, `Auto` (and the GPU backend) return exactly
the CPU pipeline's result. -/
theorem C2_counterexample :
    process_preview_with_backend_and_gpu_hook trivialOps redImage EditState.default
        .auto failingGpuHook =
      apply trivialOps redImage EditState.default ∧
    process_preview_with_backend_and_gpu_hook trivialOps redImage EditState.default
        .gpuPipeline failingGpuHook =
      apply trivialOps redImage EditState.default :=
  ⟨rfl, rfl⟩

/-- C2 — amended. When the GPU path fails (the hook returns no result),
backends `Auto` and `Gpu` fall back to the CPU pipeline's result
unconditionally; the debug fallback flag plays no role in this
per-operation dispatch (it only gates the `Cpu` coercion and the startup
policy in src/main.rs). -/
theorem C2_gpu_failure_falls_back_to_cpu (ops : ExternalOps) (source : Image)
    (st : EditState) (gpu_apply : Image → EditState → Option Image)
    (h : gpu_apply source st = none) :
    process_preview_with_backend_and_gpu_hook ops source st .auto gpu_apply =
      apply ops source st ∧
    process_preview_with_backend_and_gpu_hook ops source st .gpuPipeline gpu_apply =
      apply ops source st := by
  constructor <;> simp [process_preview_with_backend_and_gpu_hook, h]

/-- C2 — witness for the amended theorem at a concrete failing hook. -/
theorem C2_witness :
    process_preview_with_backend_and_gpu_hook trivialOps redImage EditState.default
        .auto failingGpuHook =
      apply trivialOps redImage EditState.default :=
  (C2_gpu_failure_falls_back_to_cpu trivialOps redImage EditState.default
    failingGpuHook rfl).1

theorem firstNumbered_eq_find (dir stem ext : String) (reserved disk : List String) :
    ∀ fuel n, firstNumbered dir stem ext reserved disk n fuel =
      ((List.range' n fuel).map
        (fun k => dir ++ "/" ++ stem ++ "-" ++ toString k ++ "." ++ ext)).find?
        (fun c => output_path_available c reserved disk) := by
  intro fuel
  induction fuel with
  | zero => intro n; simp [firstNumbered]
  | succ m ih =>
    intro n
    rw [List.range'_succ]
    simp only [firstNumbered, List.map_cons, List.find?_cons]
    by_cases h : output_path_available (dir ++ "/" ++ stem ++ "-" ++ toString n ++ "." ++ ext)
        reserved disk
    · simp [h]
    · simp only [h, if_false, ih]
      simp [h]

/-- C7 — counterexample. The claim says every string other than `"cpu"`,
`"auto"`, `"gpu"` parses to `Auto`, but src/main.rs also accepts the
aliases `"gpu_pipeline" | "gpu_spike" | "spike" | "wgpu"` for the GPU
backend: `"wgpu"` is none of the three named strings yet parses to the
GPU backend, not `Auto`. -/
theorem C7_counterexample :
    ("wgpu" ≠ "cpu" ∧ "wgpu" ≠ "auto" ∧ "wgpu" ≠ "gpu") ∧
      Photograph.parse_preview_backend "wgpu" ≠ Photograph.PreviewBackend.auto := by
  constructor
  · exact ⟨by decide, by decide, by decide⟩
  · decide

/-- C7 — amended. After trimming and ASCII-lowercasing, `"cpu"` maps to
`Cpu`, `"auto"` to `Auto`, each of `"gpu"`, `"gpu_pipeline"`,
`"gpu_spike"`, `"spike"`, `"wgpu"` to the GPU backend, and every other
string to `Auto`. -/
theorem C7_parse_preview_backend (s : String) :
    (Photograph.normBackendString s = "cpu" → Photograph.parse_preview_backend s = .cpu) ∧
    (Photograph.normBackendString s = "auto" → Photograph.parse_preview_backend s = .auto) ∧
    ((Photograph.normBackendString s = "gpu" ∨ Photograph.normBackendString s = "gpu_pipeline" ∨
        Photograph.normBackendString s = "gpu_spike" ∨ Photograph.normBackendString s = "spike" ∨
        Photograph.normBackendString s = "wgpu") →
      Photograph.parse_preview_backend s = .gpuPipeline) ∧
    (Photograph.normBackendString s ≠ "cpu" → Photograph.normBackendString s ≠ "auto" → Photograph.normBackendString s ≠ "gpu" →
      Photograph.normBackendString s ≠ "gpu_pipeline" → Photograph.normBackendString s ≠ "gpu_spike" →
      Photograph.normBackendString s ≠ "spike" → Photograph.normBackendString s ≠ "wgpu" →
      Photograph.parse_preview_backend s = .auto) := by
  unfold Photograph.parse_preview_backend
  refine ⟨fun h => ?_, fun h => ?_, fun h => ?_, fun h1 h2 h3 h4 h5 h6 h7 => ?_⟩
  · simp [h]
  · have : Photograph.normBackendString s ≠ "cpu" := by rw [h]; decide
    simp [h, this]
  · rcases h with h | h | h | h | h <;>
      · have hc : Photograph.normBackendString s ≠ "cpu" := by rw [h]; decide
        have ha : Photograph.normBackendString s ≠ "auto" := by rw [h]; decide
        simp [h, hc, ha]
  · simp [h1, h2, h3, h4, h5, h6, h7]

/-- C7 — witness: an unknown backend string parses to `Auto`. -/
theorem C7_witness :
    Photograph.parse_preview_backend "metal" = .auto :=
  (C7_parse_preview_backend "metal").2.2.2 (by decide) (by decide) (by decide)
    (by decide) (by decide) (by decide) (by decide)

/-- C8 — confirmed. `build_output_path` returns (and reserves) the first
candidate among `stem.ext`, `stem-2.ext`, …, `stem-9999.ext` that is
neither in the in-memory reservation set nor on disk, with
`stem-final.ext` as the ultimate fallback; and on the spec's concrete
scenario (source `/photos/IMG_0001.RAF`, JPEG): a first call with an
empty reservation set yields `/out/IMG_0001.jpg`, a second call yields
`/out/IMG_0001-2.jpg`, and when `/out/IMG_0001.jpg` already exists on
disk the first call yields `/out/IMG_0001-2.jpg`. -/
theorem C8_output_path_reservation :
    (∀ src dir ext reserved disk,
      Photograph.build_output_path src dir ext reserved disk =
        (((Photograph.candidateNames dir (Photograph.sourceStem src) ext).find?
            (fun c => Photograph.output_path_available c reserved disk)).getD
          (dir ++ "/" ++ Photograph.sourceStem src ++ "-final." ++ ext),
         ((Photograph.candidateNames dir (Photograph.sourceStem src) ext).find?
            (fun c => Photograph.output_path_available c reserved disk)).getD
          (dir ++ "/" ++ Photograph.sourceStem src ++ "-final." ++ ext) :: reserved)) ∧
    Photograph.build_output_path "/photos/IMG_0001.RAF" "/out" "jpg" [] [] =
      ("/out/IMG_0001.jpg", ["/out/IMG_0001.jpg"]) ∧
    Photograph.build_output_path "/photos/IMG_0001.RAF" "/out" "jpg"
        ["/out/IMG_0001.jpg"] [] =
      ("/out/IMG_0001-2.jpg", ["/out/IMG_0001-2.jpg", "/out/IMG_0001.jpg"]) ∧
    Photograph.build_output_path "/photos/IMG_0001.RAF" "/out" "jpg"
        [] ["/out/IMG_0001.jpg"] =
      ("/out/IMG_0001-2.jpg", ["/out/IMG_0001-2.jpg"]) := by
  refine ⟨fun src dir ext reserved disk => ?_, by decide, by decide, by decide⟩
  simp only [Photograph.build_output_path, Photograph.candidateNames,
    Photograph.firstNumbered_eq_find, List.find?_cons]
  by_cases hb : Photograph.output_path_available
      (dir ++ "/" ++ Photograph.sourceStem src ++ "." ++ ext) reserved disk
  · simp [hb]
  · simp only [Bool.not_eq_true] at hb
    simp only [hb, Bool.false_eq_true, if_false]
    cases hf : ((List.range' 2 9998).map
        (fun k => dir ++ "/" ++ Photograph.sourceStem src ++ "-" ++ toString k ++ "." ++ ext)).find?
        (fun c => Photograph.output_path_available c reserved disk) with
    | none => simp [hf]
    | some c => simp [hf]

end Photograph

open Photograph

/-- C4 — confirmed. When any of exposure, contrast, highlights, shadows
has magnitude ≥ 1e-3, the exposure stage maps each RGB channel `c`
(normalized to [0,1]) through
`clamp((c·2^exposure − 0.5)·(1 + contrast) + 0.5, 0, 1)` — exposure
clamped to [-5,5] (`exp2` models `2^·`) and contrast to [-1,1] — and only
then applies the highlights/shadows luminance adjustment; alpha is
untouched. -/
theorem C4_exposure_contrast_formula (ops : Photograph.ExternalOps)
    (st : Photograph.EditState) (img : Photograph.Image) (x y : ℕ)
    (h : ¬ (|st.exposure| < Photograph.eps ∧ |st.contrast| < Photograph.eps ∧
      |st.highlights| < Photograph.eps ∧ |st.shadows| < Photograph.eps)) :
    (Photograph.exposureApply ops st img).pix x y =
      { r := Photograph.rustRound ((Photograph.specHighlightsShadows st
            (Photograph.specToneChannel ops st (((img.pix x y).r : ℚ) / 255))
            (Photograph.specToneChannel ops st (((img.pix x y).g : ℚ) / 255))
            (Photograph.specToneChannel ops st (((img.pix x y).b : ℚ) / 255))).1 * 255)
        g := Photograph.rustRound ((Photograph.specHighlightsShadows st
            (Photograph.specToneChannel ops st (((img.pix x y).r : ℚ) / 255))
            (Photograph.specToneChannel ops st (((img.pix x y).g : ℚ) / 255))
            (Photograph.specToneChannel ops st (((img.pix x y).b : ℚ) / 255))).2.1 * 255)
        b := Photograph.rustRound ((Photograph.specHighlightsShadows st
            (Photograph.specToneChannel ops st (((img.pix x y).r : ℚ) / 255))
            (Photograph.specToneChannel ops st (((img.pix x y).g : ℚ) / 255))
            (Photograph.specToneChannel ops st (((img.pix x y).b : ℚ) / 255))).2.2 * 255)
        a := (img.pix x y).a } := by
  rw [Photograph.exposureApply, if_neg h]
  rfl

/-- C4 — witness at exposure = 1 on the red test image. -/
theorem C4_witness :
    (Photograph.exposureApply Photograph.trivialOps Photograph.exposureOnlyState
        Photograph.redImage).pix 0 0 =
      { r := Photograph.rustRound ((Photograph.specHighlightsShadows
            Photograph.exposureOnlyState
            (Photograph.specToneChannel Photograph.trivialOps Photograph.exposureOnlyState
              (((Photograph.redImage.pix 0 0).r : ℚ) / 255))
            (Photograph.specToneChannel Photograph.trivialOps Photograph.exposureOnlyState
              (((Photograph.redImage.pix 0 0).g : ℚ) / 255))
            (Photograph.specToneChannel Photograph.trivialOps Photograph.exposureOnlyState
              (((Photograph.redImage.pix 0 0).b : ℚ) / 255))).1 * 255)
        g := Photograph.rustRound ((Photograph.specHighlightsShadows
            Photograph.exposureOnlyState
            (Photograph.specToneChannel Photograph.trivialOps Photograph.exposureOnlyState
              (((Photograph.redImage.pix 0 0).r : ℚ) / 255))
            (Photograph.specToneChannel Photograph.trivialOps Photograph.exposureOnlyState
              (((Photograph.redImage.pix 0 0).g : ℚ) / 255))
            (Photograph.specToneChannel Photograph.trivialOps Photograph.exposureOnlyState
              (((Photograph.redImage.pix 0 0).b : ℚ) / 255))).2.1 * 255)
        b := Photograph.rustRound ((Photograph.specHighlightsShadows
            Photograph.exposureOnlyState
            (Photograph.specToneChannel Photograph.trivialOps Photograph.exposureOnlyState
              (((Photograph.redImage.pix 0 0).r : ℚ) / 255))
            (Photograph.specToneChannel Photograph.trivialOps Photograph.exposureOnlyState
              (((Photograph.redImage.pix 0 0).g : ℚ) / 255))
            (Photograph.specToneChannel Photograph.trivialOps Photograph.exposureOnlyState
              (((Photograph.redImage.pix 0 0).b : ℚ) / 255))).2.2 * 255)
        a := (Photograph.redImage.pix 0 0).a } :=
  C4_exposure_contrast_formula Photograph.trivialOps Photograph.exposureOnlyState
    Photograph.redImage 0 0
    (by norm_num [Photograph.exposureOnlyState, Photograph.EditState.default, Photograph.eps])

theorem ratToU32_eq_floor_toNat (q : ℚ) (h0 : 0 ≤ q) (h1 : ⌊q⌋ ≤ 2 ^ 32 - 1) :
    Photograph.ratToU32 q = (⌊q⌋).toNat := by
  unfold Photograph.ratToU32
  rw [max_eq_left (Int.floor_nonneg.mpr h0), min_eq_left h1]

/-- C5 — confirmed. For a (normalized, per the data model) crop rectangle
on a post-rotation image of size `W×H` (dimensions within the `u32`
range), the crop stage computes `cx = ⌊crop.x·W⌋`, `cy = ⌊crop.y·H⌋`,
`cw = ⌊min(crop.width·W, W − cx)⌋`, `ch = ⌊min(crop.height·H, H − cy)⌋`
and crops to that rectangle, leaving the image unchanged when `cw` or
`ch` is zero. -/
theorem C5_crop_stage (st : EditState) (c : Rect) (img : Image)
    (hc : st.crop = some c)
    (hx0 : 0 ≤ c.x) (hx1 : c.x ≤ 1) (hy0 : 0 ≤ c.y) (hy1 : c.y ≤ 1)
    (hw0 : 0 ≤ c.width) (hh0 : 0 ≤ c.height)
    (hW : (img.width : ℤ) ≤ 2 ^ 32 - 1) (hH : (img.height : ℤ) ≤ 2 ^ 32 - 1) :
    cropStage st img =
      (let cx := (⌊c.x * (img.width : ℚ)⌋).toNat
       let cy := (⌊c.y * (img.height : ℚ)⌋).toNat
       let cw := (⌊min (c.width * (img.width : ℚ)) ((img.width : ℚ) - (cx : ℚ))⌋).toNat
       let ch := (⌊min (c.height * (img.height : ℚ)) ((img.height : ℚ) - (cy : ℚ))⌋).toNat
       if 0 < cw ∧ 0 < ch then
         ({ width := cw, height := ch, pix := fun x y => img.pix (cx + x) (cy + y) } : Image)
       else img) := by
  have hWQ : ((img.width : ℚ)) ≤ (2 : ℚ) ^ 32 - 1 := by exact_mod_cast hW
  have hHQ : ((img.height : ℚ)) ≤ (2 : ℚ) ^ 32 - 1 := by exact_mod_cast hH
  have hW0 : (0 : ℚ) ≤ (img.width : ℚ) := by positivity
  have hH0 : (0 : ℚ) ≤ (img.height : ℚ) := by positivity
  -- cx
  have hx_nonneg : 0 ≤ c.x * (img.width : ℚ) := mul_nonneg hx0 hW0
  have hx_le : c.x * (img.width : ℚ) ≤ (img.width : ℚ) := by nlinarith
  have hx_floor_le : ⌊c.x * (img.width : ℚ)⌋ ≤ (img.width : ℤ) := by
    have := Int.floor_le_floor hx_le
    rwa [Int.floor_natCast] at this
  have ex : ratToU32 (c.x * (img.width : ℚ)) = (⌊c.x * (img.width : ℚ)⌋).toNat :=
    ratToU32_eq_floor_toNat _ hx_nonneg (le_trans hx_floor_le hW)
  -- cy
  have hy_nonneg : 0 ≤ c.y * (img.height : ℚ) := mul_nonneg hy0 hH0
  have hy_le : c.y * (img.height : ℚ) ≤ (img.height : ℚ) := by nlinarith
  have hy_floor_le : ⌊c.y * (img.height : ℚ)⌋ ≤ (img.height : ℤ) := by
    have := Int.floor_le_floor hy_le
    rwa [Int.floor_natCast] at this
  have ey : ratToU32 (c.y * (img.height : ℚ)) = (⌊c.y * (img.height : ℚ)⌋).toNat :=
    ratToU32_eq_floor_toNat _ hy_nonneg (le_trans hy_floor_le hH)
  -- the cast of cx back to ℚ
  have hx_floor_nonneg : 0 ≤ ⌊c.x * (img.width : ℚ)⌋ := Int.floor_nonneg.mpr hx_nonneg
  have hcxQ : (((⌊c.x * (img.width : ℚ)⌋).toNat : ℚ)) ≤ (img.width : ℚ) := by
    rw [show (((⌊c.x * (img.width : ℚ)⌋).toNat : ℚ)) = ((⌊c.x * (img.width : ℚ)⌋ : ℤ) : ℚ) by
      exact_mod_cast congrArg (Int.cast : ℤ → ℚ) (Int.toNat_of_nonneg hx_floor_nonneg)]
    exact_mod_cast hx_floor_le
  have hcxQ0 : (0 : ℚ) ≤ (((⌊c.x * (img.width : ℚ)⌋).toNat : ℚ)) := by positivity
  have hy_floor_nonneg : 0 ≤ ⌊c.y * (img.height : ℚ)⌋ := Int.floor_nonneg.mpr hy_nonneg
  have hcyQ : (((⌊c.y * (img.height : ℚ)⌋).toNat : ℚ)) ≤ (img.height : ℚ) := by
    rw [show (((⌊c.y * (img.height : ℚ)⌋).toNat : ℚ)) = ((⌊c.y * (img.height : ℚ)⌋ : ℤ) : ℚ) by
      exact_mod_cast congrArg (Int.cast : ℤ → ℚ) (Int.toNat_of_nonneg hy_floor_nonneg)]
    exact_mod_cast hy_floor_le
  have hcyQ0 : (0 : ℚ) ≤ (((⌊c.y * (img.height : ℚ)⌋).toNat : ℚ)) := by positivity
  -- cw
  have hw_nonneg : 0 ≤ min (c.width * (img.width : ℚ))
      ((img.width : ℚ) - (((⌊c.x * (img.width : ℚ)⌋).toNat : ℚ))) :=
    le_min (mul_nonneg hw0 hW0) (by linarith)
  have hw_le : min (c.width * (img.width : ℚ))
      ((img.width : ℚ) - (((⌊c.x * (img.width : ℚ)⌋).toNat : ℚ))) ≤ (img.width : ℚ) :=
    le_trans (min_le_right _ _) (by linarith)
  have hw_floor_le : ⌊min (c.width * (img.width : ℚ))
      ((img.width : ℚ) - (((⌊c.x * (img.width : ℚ)⌋).toNat : ℚ)))⌋ ≤ (img.width : ℤ) := by
    have := Int.floor_le_floor hw_le
    rwa [Int.floor_natCast] at this
  have ew : ratToU32 (min (c.width * (img.width : ℚ))
      ((img.width : ℚ) - (((⌊c.x * (img.width : ℚ)⌋).toNat : ℚ)))) =
      (⌊min (c.width * (img.width : ℚ))
        ((img.width : ℚ) - (((⌊c.x * (img.width : ℚ)⌋).toNat : ℚ)))⌋).toNat :=
    ratToU32_eq_floor_toNat _ hw_nonneg (le_trans hw_floor_le hW)
  -- ch
  have hh_nonneg : 0 ≤ min (c.height * (img.height : ℚ))
      ((img.height : ℚ) - (((⌊c.y * (img.height : ℚ)⌋).toNat : ℚ))) :=
    le_min (mul_nonneg hh0 hH0) (by linarith)
  have hh_le : min (c.height * (img.height : ℚ))
      ((img.height : ℚ) - (((⌊c.y * (img.height : ℚ)⌋).toNat : ℚ))) ≤ (img.height : ℚ) :=
    le_trans (min_le_right _ _) (by linarith)
  have hh_floor_le : ⌊min (c.height * (img.height : ℚ))
      ((img.height : ℚ) - (((⌊c.y * (img.height : ℚ)⌋).toNat : ℚ)))⌋ ≤ (img.height : ℤ) := by
    have := Int.floor_le_floor hh_le
    rwa [Int.floor_natCast] at this
  have eh : ratToU32 (min (c.height * (img.height : ℚ))
      ((img.height : ℚ) - (((⌊c.y * (img.height : ℚ)⌋).toNat : ℚ)))) =
      (⌊min (c.height * (img.height : ℚ))
        ((img.height : ℚ) - (((⌊c.y * (img.height : ℚ)⌋).toNat : ℚ)))⌋).toNat :=
    ratToU32_eq_floor_toNat _ hh_nonneg (le_trans hh_floor_le hH)
  simp only [cropStage, hc, ex, ey, ew, eh]

/-- C5 — witness at a concrete normalized crop on a 4×4 image. -/
theorem C5_witness :
    cropStage witnessCropState flatImage4 =
      (let cx := (⌊witnessCropRect.x * (flatImage4.width : ℚ)⌋).toNat
       let cy := (⌊witnessCropRect.y * (flatImage4.height : ℚ)⌋).toNat
       let cw := (⌊min (witnessCropRect.width * (flatImage4.width : ℚ))
         ((flatImage4.width : ℚ) - (cx : ℚ))⌋).toNat
       let ch := (⌊min (witnessCropRect.height * (flatImage4.height : ℚ))
         ((flatImage4.height : ℚ) - (cy : ℚ))⌋).toNat
       if 0 < cw ∧ 0 < ch then
         ({ width := cw, height := ch,
            pix := fun x y => flatImage4.pix (cx + x) (cy + y) } : Image)
       else flatImage4) :=
  C5_crop_stage witnessCropState witnessCropRect flatImage4 rfl
    (by norm_num [witnessCropRect]) (by norm_num [witnessCropRect])
    (by norm_num [witnessCropRect]) (by norm_num [witnessCropRect])
    (by norm_num [witnessCropRect]) (by norm_num [witnessCropRect])
    (by norm_num [flatImage4]) (by norm_num [flatImage4])

/-- C6 — counterexample. `color::apply` never clamps `hue_shift` to
[-180, 180]: it divides the raw value by 360 and wraps. On a pure-red
pixel, `hue_shift = 480` behaves like a 120° rotation (green), while the
claimed pre-clamping to 180 would give a 180° rotation (cyan) — the
outputs differ, so the stage is not invariant under clamping `hue_shift`
to its documented range. -/
theorem C6_counterexample :
    clampQ 480 (-180) 180 = 180 ∧
    (colorApply (hueOnlyState 480) redImage).pix 0 0 ≠
      (colorApply (hueOnlyState (clampQ 480 (-180) 180)) redImage).pix 0 0 := by
  have hcl : clampQ 480 (-180) 180 = 180 := by norm_num [clampQ, min_def, max_def]
  refine ⟨hcl, ?_⟩
  rw [hcl]
  have e1 : (colorApply (hueOnlyState 480) redImage).pix 0 0 = ⟨0, 255, 0, 255⟩ := by
    norm_num [colorApply, colorPixel, hueOnlyState, EditState.default, redImage,
      rgb_to_hsl, hsl_to_rgb, hue_to_rgb, wrap_unit, rem6, selectiveStep,
      selective_weight, hue_distance_deg, clampQ, rustRound, eps, eps32,
      selectiveCenters, List.replicate, min_def, max_def, abs, anySelectiveActive]
  have e2 : (colorApply (hueOnlyState 180) redImage).pix 0 0 = ⟨0, 255, 255, 255⟩ := by
    norm_num [colorApply, colorPixel, hueOnlyState, EditState.default, redImage,
      rgb_to_hsl, hsl_to_rgb, hue_to_rgb, wrap_unit, rem6, selectiveStep,
      selective_weight, hue_distance_deg, clampQ, rustRound, eps, eps32,
      selectiveCenters, List.replicate, min_def, max_def, abs, anySelectiveActive]
  rw [e1, e2]
  intro h
  exact absurd (congrArg Pixel.b h) (by norm_num)

theorem abs_clampQ_lt_iff (lo hi ε : ℚ) (hε : 0 < ε) (hlo : lo ≤ -ε) (hhi : ε ≤ hi)
    (x : ℚ) : |clampQ x lo hi| < ε ↔ |x| < ε := by
  unfold clampQ
  rw [abs_lt, abs_lt, min_def, max_def]
  split_ifs with h1 h2 h3 <;>
    constructor <;> intro hh <;> exact ⟨by linarith [hh.1, hh.2], by linarith [hh.1, hh.2]⟩

theorem clampQ_of_mem (lo hi y : ℚ) (hy1 : lo ≤ y) (hy2 : y ≤ hi) :
    clampQ y lo hi = y := by
  unfold clampQ
  rw [min_eq_left hy2, max_eq_right hy1]

theorem clampQ_idem (lo hi : ℚ) (h : lo ≤ hi) (x : ℚ) :
    clampQ (clampQ x lo hi) lo hi = clampQ x lo hi :=
  clampQ_of_mem lo hi _ (le_max_left _ _) (max_le h (min_le_right _ _))

theorem exposurePixel_toneClamped (ops : ExternalOps) (st : EditState) :
    exposurePixel ops (toneClamped st) = exposurePixel ops st := by
  funext p
  simp only [exposurePixel, toneClamped]
  rw [clampQ_idem (-5) 5 (by norm_num) st.exposure,
    clampQ_idem (-1) 1 (by norm_num) st.contrast,
    clampQ_idem (-1) 1 (by norm_num) st.highlights,
    clampQ_idem (-1) 1 (by norm_num) st.shadows]

theorem exposureApply_toneClamped (ops : ExternalOps) (st : EditState) (img : Image) :
    exposureApply ops (toneClamped st) img = exposureApply ops st img := by
  have h1 : |(toneClamped st).exposure| < eps ↔ |st.exposure| < eps :=
    abs_clampQ_lt_iff (-5) 5 eps (by norm_num [eps]) (by norm_num [eps])
      (by norm_num [eps]) st.exposure
  have h2 : |(toneClamped st).contrast| < eps ↔ |st.contrast| < eps :=
    abs_clampQ_lt_iff (-1) 1 eps (by norm_num [eps]) (by norm_num [eps])
      (by norm_num [eps]) st.contrast
  have h3 : |(toneClamped st).highlights| < eps ↔ |st.highlights| < eps :=
    abs_clampQ_lt_iff (-1) 1 eps (by norm_num [eps]) (by norm_num [eps])
      (by norm_num [eps]) st.highlights
  have h4 : |(toneClamped st).shadows| < eps ↔ |st.shadows| < eps :=
    abs_clampQ_lt_iff (-1) 1 eps (by norm_num [eps]) (by norm_num [eps])
      (by norm_num [eps]) st.shadows
  have hiff := and_congr h1 (and_congr h2 (and_congr h3 h4))
  rw [exposureApply, exposureApply]
  by_cases hcond : |st.exposure| < eps ∧ |st.contrast| < eps ∧
      |st.highlights| < eps ∧ |st.shadows| < eps
  · rw [if_pos hcond, if_pos (hiff.mpr hcond)]
  · rw [if_neg hcond, if_neg (fun hh => hcond (hiff.mp hh)),
      exposurePixel_toneClamped]

theorem colorPixel_tempSatClamped (st : EditState) :
    colorPixel (tempSatClamped st) = colorPixel st := by
  funext p
  simp only [colorPixel, tempSatClamped]
  rw [clampQ_idem (-1) 1 (by norm_num) st.temperature,
    clampQ_idem (-1) 1 (by norm_num) st.saturation]

theorem colorApply_tempSatClamped (st : EditState) (img : Image) :
    colorApply (tempSatClamped st) img = colorApply st img := by
  have h1 : |(tempSatClamped st).temperature| < eps ↔ |st.temperature| < eps :=
    abs_clampQ_lt_iff (-1) 1 eps (by norm_num [eps]) (by norm_num [eps])
      (by norm_num [eps]) st.temperature
  have h2 : |(tempSatClamped st).saturation| < eps ↔ |st.saturation| < eps :=
    abs_clampQ_lt_iff (-1) 1 eps (by norm_num [eps]) (by norm_num [eps])
      (by norm_num [eps]) st.saturation
  have h3 : |(tempSatClamped st).hue_shift| < eps ↔ |st.hue_shift| < eps := Iff.rfl
  have h4 : (¬ anySelectiveActive (tempSatClamped st)) ↔ (¬ anySelectiveActive st) := Iff.rfl
  have hiff := and_congr h1 (and_congr h2 (and_congr h3 h4))
  rw [colorApply, colorApply]
  by_cases hcond : |st.temperature| < eps ∧ |st.saturation| < eps ∧
      |st.hue_shift| < eps ∧ ¬ anySelectiveActive st
  · rw [if_pos hcond, if_pos (hiff.mpr hcond)]
  · rw [if_neg hcond, if_neg (fun hh => hcond (hiff.mp hh)),
      colorPixel_tempSatClamped]

theorem filtersApply_gradClamped (ops : ExternalOps) (st : EditState) (img : Image) :
    filtersApply ops (gradClamped st) img = filtersApply ops st img := by
  cases hg : st.graduated_filter with
  | none => simp [filtersApply, gradClamped, hg]
  | some g =>
    simp only [filtersApply, gradClamped, hg, Option.map_some']
    have h1 := abs_clampQ_lt_iff (-5) 5 eps (by norm_num [eps]) (by norm_num [eps])
      (by norm_num [eps]) g.exposure
    by_cases hc1 : |g.exposure| < eps
    · rw [if_pos (h1.mpr hc1), if_pos hc1]
    · rw [if_neg (fun hh => hc1 (h1.mp hh)), if_neg hc1,
        clampQ_idem 0 1 (by norm_num) g.top, clampQ_idem 0 1 (by norm_num) g.bottom,
        clampQ_idem (-5) 5 (by norm_num) g.exposure]

/-- C6 — amended. The tone stage clamps exposure to [-5,5] and contrast,
highlights, shadows to [-1,1]; the color stage clamps temperature and
saturation to [-1,1]; the graduated filter clamps top and bottom to [0,1]
and its exposure to [-5,5] — each stage's result is invariant under
pre-clamping those scalar inputs to their documented ranges. `hue_shift`,
however, is NOT clamped to [-180,180]: it is divided by 360 and wrapped
modulo one hue turn (see the counterexample). In the embedding the stages
are total functions, so they cannot fail on out-of-range inputs. -/
theorem C6_stage_scalar_clamping (ops : ExternalOps) (st : EditState) (img : Image) :
    exposureApply ops (toneClamped st) img = exposureApply ops st img ∧
    colorApply (tempSatClamped st) img = colorApply st img ∧
    filtersApply ops (gradClamped st) img = filtersApply ops st img :=
  ⟨exposureApply_toneClamped ops st img, colorApply_tempSatClamped st img,
    filtersApply_gradClamped ops st img⟩

theorem u64succ_ne (g : ℕ) : u64succ g ≠ g := by
  intro h
  unfold u64succ at h
  have hlt : g < 2 ^ 64 := h ▸ Nat.mod_lt _ (by norm_num)
  by_cases hg : g + 1 < 2 ^ 64
  · rw [Nat.mod_eq_of_lt hg] at h
    omega
  · have hx : g + 1 = 2 ^ 64 := by omega
    rw [hx, Nat.mod_self] at h
    omega

theorem schedInv_init : SchedInv schedInit := by
  intro g s h
  simp [schedInit] at h

theorem schedInv_step (σ : Sched) (e : SchedEvent) (h : SchedInv σ) :
    SchedInv (schedStep σ e) := by
  obtain ⟨est, np, nf, pr, rq, infl, tx⟩ := σ
  cases e with
  | mutate s' =>
    intro g s hin
    simp only [schedStep, bumpForPendingChanges] at hin ⊢
    split_ifs at hin ⊢ with hcond
    · obtain ⟨hb1, _, hb3⟩ := hcond
      dsimp only at hin hb3 hb1 ⊢
      obtain ⟨hp, _⟩ := h g s hin
      rw [hin] at hb3
      simp only [Option.map_some', Option.some.injEq] at hb3
      subst hb3
      exact ⟨hp, Or.inr rfl⟩
    · dsimp only at hin ⊢
      obtain ⟨hp, hc⟩ := h g s hin
      refine ⟨hp, ?_⟩
      rcases hc with ⟨hA1, hA2⟩ | hB
      · exfalso
        apply hcond
        dsimp only at hp hA1 hA2
        refine ⟨hp, trivial, ?_⟩
        rw [hin]
        simp [hA1]
      · exact Or.inr hB
  | submit interactive =>
    intro g s hin
    simp only [schedStep, bumpForPendingChanges] at hin ⊢
    split_ifs at hin ⊢ with hc1 hc2 hc2
    · dsimp only at hin ⊢
      simp only [Option.some.injEq, Prod.mk.injEq] at hin
      exact ⟨rfl, Or.inl ⟨hin.1, hin.2⟩⟩
    · dsimp only at hin ⊢
      obtain ⟨hp, hc⟩ := h g s hin
      refine ⟨hp, ?_⟩
      obtain ⟨_, _, hb3⟩ := hc1
      rw [hin] at hb3
      simp only [Option.map_some', Option.some.injEq] at hb3
      subst hb3
      exact Or.inr rfl
    · dsimp only at hin ⊢
      simp only [Option.some.injEq, Prod.mk.injEq] at hin
      exact ⟨rfl, Or.inl ⟨hin.1, hin.2⟩⟩
    · dsimp only at hin ⊢
      obtain ⟨hp, hc⟩ := h g s hin
      refine ⟨hp, ?_⟩
      rcases hc with ⟨hA1, hA2⟩ | hB
      · exact Or.inl ⟨hA1, hA2⟩
      · exact Or.inr hB
  | arrive =>
    intro g s hin
    simp only [schedStep] at hin
    cases hfl : infl with
    | none =>
      rw [hfl] at hin
      dsimp only at hin
      exact absurd hin (by simp)
    | some gs =>
      rw [hfl] at hin
      dsimp only at hin
      split_ifs at hin

theorem schedInv_run (evs : List SchedEvent) : SchedInv (schedRun evs) := by
  unfold schedRun
  have hgen : ∀ σ, SchedInv σ → SchedInv (evs.foldl schedStep σ) := by
    induction evs with
    | nil => intro σ hσ; exact hσ
    | cons e rest ih => intro σ hσ; exact ih _ (schedInv_step σ e hσ)
  exact hgen schedInit schedInv_init

/-- C9 — confirmed. For every sequence of owner events (edit-state
mutations, submissions, result arrivals): when the outstanding worker
result carries a generation stamp different from `requested_generation`
at receipt, `drain` leaves the published texture unchanged; when the
stamp matches, the texture published is exactly the one computed from the
owner's current (most recent) `EditState` — a mutation while the job was
in flight would have bumped `requested_generation`, forcing the mismatch
case. -/
theorem C9_generation_protocol (evs : List SchedEvent) (g : ℕ) (s : EditState)
    (h : (schedRun evs).inFlight = some (g, s)) :
    (g ≠ (schedRun evs).requested →
      (schedStep (schedRun evs) .arrive).texture = (schedRun evs).texture) ∧
    (g = (schedRun evs).requested →
      (schedStep (schedRun evs) .arrive).texture = some (schedRun evs).editState ∧
        s = (schedRun evs).editState) := by
  obtain ⟨hp, hcase⟩ := schedInv_run evs g s h
  constructor
  · intro hne
    simp [schedStep, h, hne]
  · intro heq
    rcases hcase with ⟨hreq, hstate⟩ | hreq
    · constructor
      · simp [schedStep, h, heq.symm, hstate]
      · exact hstate.symm
    · exact absurd (heq.trans hreq).symm (u64succ_ne g)

/-- C9 — witness: after one mutation and one submission, the in-flight
job is stamped with the current generation and its arrival publishes the
current edit state. -/
theorem C9_witness :
    (schedStep (schedRun [SchedEvent.mutate EditState.default, SchedEvent.submit false])
        .arrive).texture =
      some (schedRun [SchedEvent.mutate EditState.default,
        SchedEvent.submit false]).editState := by
  have h : (schedRun [SchedEvent.mutate EditState.default,
      SchedEvent.submit false]).inFlight = some (1, EditState.default) := by
    norm_num [schedRun, schedStep, bumpForPendingChanges, schedInit, u64succ]
  have hg : (1 : ℕ) = (schedRun [SchedEvent.mutate EditState.default,
      SchedEvent.submit false]).requested := by
    norm_num [schedRun, schedStep, bumpForPendingChanges, schedInit, u64succ]
  exact ((C9_generation_protocol _ 1 EditState.default h).2 hg).1

theorem rect_roundtrip (r : Rect) : Rect.fromJson? (Rect.toJson r) = some r := by
  simp [Rect.toJson, Rect.fromJson?, List.lookup, Json.asNum, Option.bind]

theorem keystone_roundtrip (k : Keystone) :
    Keystone.fromJson? (Keystone.toJson k) = some k := by
  simp [Keystone.toJson, Keystone.fromJson?, List.lookup, Json.asNum, Option.bind]

theorem hsl_roundtrip (a : HslAdjust) :
    HslAdjust.fromJson? (HslAdjust.toJson a) = some a := by
  simp [HslAdjust.toJson, HslAdjust.fromJson?, List.lookup, Json.asNum, Option.bind]

theorem grad_roundtrip (gf : GradFilter) :
    GradFilter.fromJson? (GradFilter.toJson gf) = some gf := by
  simp [GradFilter.toJson, GradFilter.fromJson?, List.lookup, Json.asNum, Option.bind]

theorem hsl_mapM_loop (l : List HslAdjust) : ∀ acc,
    List.mapM.loop HslAdjust.fromJson? (l.map HslAdjust.toJson) acc =
      some (acc.reverse ++ l) := by
  induction l with
  | nil => intro acc; simp [List.mapM.loop]
  | cons a t ih => intro acc; simp [List.mapM.loop, hsl_roundtrip, ih]

theorem opt_rect_roundtrip (o : Option Rect) :
    optFromJson Rect.fromJson? (some (optToJson Rect.toJson o)) = some o := by
  cases o with
  | none => rfl
  | some r =>
    rw [show optToJson Rect.toJson (some r) = Rect.toJson r from rfl]
    rw [show optFromJson Rect.fromJson? (some (Rect.toJson r)) =
      (Rect.fromJson? (Rect.toJson r)).map some from rfl]
    rw [rect_roundtrip]
    rfl

theorem opt_grad_roundtrip (o : Option GradFilter) :
    optFromJson GradFilter.fromJson? (some (optToJson GradFilter.toJson o)) = some o := by
  cases o with
  | none => rfl
  | some gf =>
    rw [show optToJson GradFilter.toJson (some gf) = GradFilter.toJson gf from rfl]
    rw [show optFromJson GradFilter.fromJson? (some (GradFilter.toJson gf)) =
      (GradFilter.fromJson? (GradFilter.toJson gf)).map some from rfl]
    rw [grad_roundtrip]
    rfl

/-- C10 — confirmed. Serializing an `EditState` to its sidecar JSON
object (canonical field names, declaration order, `Option` as
null-or-value, the selective-color array element-wise) and deserializing
the result (missing fields defaulted per `#[serde(default)]`) returns the
original record field-for-field, for every `EditState` value. -/
theorem C10_sidecar_roundtrip (s : EditState) :
    EditState.fromJson? (EditState.toJson s) = some s := by
  simp [EditState.toJson, EditState.fromJson?, List.lookup, numField, boolField,
    Json.asNum, Json.asBool, Json.asInt, opt_rect_roundtrip, opt_grad_roundtrip,
    keystone_roundtrip, hsl_mapM_loop, Rat.den_intCast, Rat.num_intCast,
    Option.bind]
